import Mathlib

/-!
Shallow embedding of `BCC_defect_classification.py` (the `modify` pass).

The script classifies every atom of a snapshot into one of seven defect
categories.  Inputs per atom (computed upstream by OVITO modifiers) are:
the coordination number (`atom_coord`, an integer), the centrosymmetry
parameter (`atom_csp`, a float, embedded here as an exact rational), and
the CNA structure-type tag (`atom_cna`, an integer; tag 3 is BCC).
The in-cutoff neighbor lists produced by `CutoffNeighborFinder` are
embedded as an input table `rawNeighbors`.

The output `Defect Type` property is initialized to Bulk and then written
atom by atom in index order; the surface predicate reads the labels
already written, so the per-atom classifier takes the current label array
as an explicit argument.
-/

/-- The seven defect categories of the script (`blk`..`els`, codes 0..6). -/
inductive DefectType where
  | Bulk
  | Surface
  | Vacancy
  | Dislocation
  | Twin
  | PlanarFault
  | Unidentified
deriving DecidableEq, BEq, Repr

/-- The immutable inputs of one classification pass: atom count, the three
descriptor arrays, and the in-cutoff neighbor lists (the output of
`neighbor_finder.find`, before the script's own filtering). -/
structure Snapshot where
  numAtoms : Nat
  coord : Nat → Int
  csp : Nat → ℚ
  cna : Nat → Nat
  rawNeighbors : Nat → List Nat

/-- `get_neighbors(index)`: the in-cutoff neighbors, keeping `neigh` only
when `atom_cna[neigh] != 3 or atom_coord[neigh] != 14`. -/
def get_neighbors (s : Snapshot) (i : Nat) : List Nat :=
  (s.rawNeighbors i).filter (fun n => (s.cna n != 3) || (s.coord n != 14))

/-- The per-neighbor condition counted by the surface rule:
`defect_property[n] == srf or (atom_cna[n] != 3 and atom_coord[n] <= 11)`. -/
def surfaceQualifying (s : Snapshot) (L : Nat → DefectType) (n : Nat) : Bool :=
  L n == DefectType.Surface || ((s.cna n != 3) && decide (s.coord n ≤ 11))

/-- `is_surface(i)`: fires for non-BCC tags, either directly
(`coordination <= 11`) or when at least 4 filtered neighbors qualify. -/
def is_surface (s : Snapshot) (L : Nat → DefectType) (i : Nat) : Bool :=
  if s.cna i ≠ 3 then
    if s.coord i ≤ 11 then true
    else decide (4 ≤ (get_neighbors s i).countP (surfaceQualifying s L))
  else false

/-- `is_dislo(i)`: two branches on the atom's own coordination. -/
def is_dislo (s : Snapshot) (i : Nat) : Bool :=
  if 12 ≤ s.coord i ∧ s.coord i ≠ 14 then
    let ns := get_neighbors s i
    let nr14 := ns.countP (fun n => s.coord n == 14)
    let nrNon14 := ns.length - nr14
    decide (nr14 < nrNon14)
  else if s.coord i = 14 then
    let ns := get_neighbors s i
    let nrNon14 := ns.countP (fun n => decide (12 ≤ s.coord n) && (s.coord n != 14))
    let nr14 := ns.countP (fun n => s.coord n == 14)
    decide (4 ≤ nrNon14 ∧ nr14 ≤ 6)
  else false

/-- Count of filtered neighbors with `atom_coord[n] == c and atom_csp[n] > 4`
(the `nr_13` / `nr_12` sums of `is_vac`). -/
def nrQual (s : Snapshot) (i : Nat) (c : Int) : Nat :=
  (get_neighbors s i).countP (fun n => s.coord n == c && decide ((4 : ℚ) < s.csp n))

/-- `is_vac(i)`: mono-vacancy branches for coordination 13 and the
di-vacancy branch for coordination 12. -/
def is_vac (s : Snapshot) (i : Nat) : Bool :=
  if s.coord i = 13 ∧ s.csp i < 1 then
    decide (nrQual s i 13 = 4 ∨ (nrQual s i 13 = 2 ∧ nrQual s i 12 = 2))
  else if s.coord i = 13 ∧ 4 < s.csp i then
    decide (4 ≤ nrQual s i 13)
  else if s.coord i = 12 ∧ 4 < s.csp i then
    decide (nrQual s i 12 = 1 ∧ nrQual s i 13 = 4)
  else false

/-- `is_twin(i)`: three branches; at coordination 14 a centrosymmetry above 8
fires unconditionally. -/
def is_twin (s : Snapshot) (i : Nat) : Bool :=
  if s.coord i = 13 ∧ mkRat 9 2 < s.csp i then  -- mkRat 9 2 is the source's 4.5
    let ns := get_neighbors s i
    decide (ns.countP (fun n => s.coord n == 13) = 5 ∧
            ns.countP (fun n => s.coord n == 14) = 2)
  else if s.coord i = 14 ∧ (8 : ℚ) < s.csp i then true
  else if s.coord i = 14 then
    let ns := get_neighbors s i
    decide (4 ≤ ns.countP (fun n => s.coord n == 13) ∧
            2 ≤ ns.countP (fun n => s.coord n == 14))
  else false

/-- `is_planarfault(i)`: only for non-BCC tags, branching on coordination
12 or 13 with interval conditions on the neighbor counts. -/
def is_planarfault (s : Snapshot) (i : Nat) : Bool :=
  if s.cna i ≠ 3 then
    let ns := get_neighbors s i
    let nr12 := ns.countP (fun n => s.coord n == 12)
    let nr13 := ns.countP (fun n => s.coord n == 13)
    if s.coord i = 12 then
      decide ((3 ≤ nr12 ∧ nr12 ≤ 6) ∧ (7 ≤ nr13 ∧ nr13 ≤ 9))
    else if s.coord i = 13 then
      decide (nr12 + nr13 = 9 ∧ 7 ≤ nr13)
    else false
  else false

/-- The body of the Step-2 loop for one atom: the perfect-BCC short-circuit
(`atom_cna[i] == 3 and atom_coord[i] == 14`), then the predicate chain
`is_surface or is_dislo or is_vac or is_twin or is_planarfault`, else
Unidentified.  `L` is the label array as it stands when atom `i` is
evaluated (only `is_surface` reads it). -/
def classifyAtom (s : Snapshot) (L : Nat → DefectType) (i : Nat) : DefectType :=
  if s.cna i = 3 ∧ s.coord i = 14 then DefectType.Bulk
  else if is_surface s L i then DefectType.Surface
  else if is_dislo s i then DefectType.Dislocation
  else if is_vac s i then DefectType.Vacancy
  else if is_twin s i then DefectType.Twin
  else if is_planarfault s i then DefectType.PlanarFault
  else DefectType.Unidentified

/-- Writing atom `i`'s result into the label array. -/
def passStep (s : Snapshot) (L : Nat → DefectType) (i : Nat) : Nat → DefectType :=
  fun j => if j = i then classifyAtom s L i else L j

/-- The Step-2 loop over a list of atom indices, threading the label array. -/
def runPassAux (s : Snapshot) : List Nat → (Nat → DefectType) → (Nat → DefectType)
  | [], L => L
  | i :: rest, L => runPassAux s rest (passStep s L i)

/-- The whole Step-2 loop: labels initialized to Bulk, atoms processed in
ascending index order. -/
def runPass (s : Snapshot) : Nat → DefectType :=
  runPassAux s (List.range s.numAtoms) (fun _ => DefectType.Bulk)

/-!
Concrete snapshots used to instantiate the theorems below.
-/

/-- The all-Bulk label array: the initial state of `defect_property`. -/
def L0 : Nat → DefectType := fun _ => DefectType.Bulk

/-- A label array that marks every atom except atom 0 as Surface. -/
def L3a : Nat → DefectType := fun n => if n = 0 then DefectType.Bulk else DefectType.Surface

/-- One atom with the perfect-BCC signature (tag 3, coordination 14) and
centrosymmetry 9. -/
def snapA : Snapshot :=
  { numAtoms := 1, coord := fun _ => 14, csp := fun _ => 9, cna := fun _ => 3,
    rawNeighbors := fun _ => [] }

/-- Atom 0: tag 0, coordination 12, with four in-cutoff neighbors of tag 3
and coordination 13 (kept by the filter, surface-qualifying only via their
current labels). -/
def snapB : Snapshot :=
  { numAtoms := 5,
    coord := fun n => if n = 0 then 12 else 13,
    csp := fun _ => 0,
    cna := fun n => if n = 0 then 0 else 3,
    rawNeighbors := fun n => if n = 0 then [1, 2, 3, 4] else [] }

/-- One atom with a negative coordination value and a tag that is not 3. -/
def snapC : Snapshot :=
  { numAtoms := 1, coord := fun _ => -1, csp := fun _ => 0, cna := fun _ => 0,
    rawNeighbors := fun _ => [] }

/-- Atom 0: tag 0, coordination 11.  Atom 5: tag 0, coordination 12, with
four neighbors of tag 0 and coordination 5 (surface-qualifying by their
descriptors). -/
def snapD : Snapshot :=
  { numAtoms := 6,
    coord := fun n => if n = 0 then 11 else if n = 5 then 12 else 5,
    csp := fun _ => 0,
    cna := fun _ => 0,
    rawNeighbors := fun n => if n = 5 then [1, 2, 3, 4] else [] }

/-- Atom 0: coordination 13, centrosymmetry 1/2, with 4 neighbors of
coordination 13 and centrosymmetry 5 and 9 neighbors of coordination 14
(tag 0, so the filter keeps them). -/
def snapE : Snapshot :=
  { numAtoms := 14,
    coord := fun n => if n ≤ 4 then 13 else 14,
    csp := fun n => if n = 0 then mkRat 1 2 else if n ≤ 4 then 5 else 0,
    cna := fun _ => 0,
    rawNeighbors := fun n => if n = 0 then [1,2,3,4,5,6,7,8,9,10,11,12,13] else [] }

/-- Atom 0: tag 3, coordination 13, centrosymmetry 5, with four neighbors
of coordination 13 and centrosymmetry 5: both `is_dislo` and `is_vac`
hold for atom 0. -/
def snapF : Snapshot :=
  { numAtoms := 5,
    coord := fun _ => 13,
    csp := fun _ => 5,
    cna := fun n => if n = 0 then 3 else 0,
    rawNeighbors := fun n => if n = 0 then [1, 2, 3, 4] else [] }

/-- Atom 0: coordination 13, centrosymmetry 1/2, with exactly five
neighbors of coordination 13 and centrosymmetry 5. -/
def snapG : Snapshot :=
  { numAtoms := 6,
    coord := fun _ => 13,
    csp := fun n => if n = 0 then mkRat 1 2 else 5,
    cna := fun _ => 0,
    rawNeighbors := fun n => if n = 0 then [1, 2, 3, 4, 5] else [] }

/-!
Helper lemmas: a predicate that returns false cannot be the one that
labels the atom.
-/

/-- If `is_surface` is false for atom `i`, the loop body never assigns
Surface: every other outcome is a different constructor. -/
lemma classifyAtom_ne_surface (s : Snapshot) (L : Nat → DefectType) (i : Nat)
    (h : is_surface s L i = false) : classifyAtom s L i ≠ DefectType.Surface := by
  unfold classifyAtom
  split_ifs <;> simp_all

/-- If `is_vac` is false for atom `i`, the loop body never assigns Vacancy. -/
lemma classifyAtom_ne_vacancy (s : Snapshot) (L : Nat → DefectType) (i : Nat)
    (h : is_vac s i = false) : classifyAtom s L i ≠ DefectType.Vacancy := by
  unfold classifyAtom
  split_ifs <;> simp_all

/-- If `is_planarfault` is false for atom `i`, the loop body never assigns
PlanarFault. -/
lemma classifyAtom_ne_planarfault (s : Snapshot) (L : Nat → DefectType) (i : Nat)
    (h : is_planarfault s i = false) : classifyAtom s L i ≠ DefectType.PlanarFault := by
  unfold classifyAtom
  split_ifs <;> simp_all

/-!
Claim theorems.
-/

/-- Claim C1: every atom whose structure tag is 3 (BCC) and whose
coordination is 14 is labeled Bulk by the loop body, for any
centrosymmetry value, any neighbor lists, and any current label array. -/
theorem c1_perfect_is_bulk (s : Snapshot) (L : Nat → DefectType) (i : Nat)
    (hcna : s.cna i = 3) (hcoord : s.coord i = 14) :
    classifyAtom s L i = DefectType.Bulk := by
  simp [classifyAtom, hcna, hcoord]

/-- Witness for C1: in `snapA` (tag 3, coordination 14, centrosymmetry 9)
atom 0 is labeled Bulk. -/
theorem c1_perfect_is_bulk_witness :
    snapA.cna 0 = 3 ∧ snapA.coord 0 = 14 ∧ classifyAtom snapA L0 0 = DefectType.Bulk :=
  ⟨rfl, rfl, c1_perfect_is_bulk snapA L0 0 rfl rfl⟩

/-- Counterexample to C2: in `snapA` atom 0 has coordination 14,
centrosymmetry 9, tag 3, yet its label is not Twin (it is Bulk: the
perfect-lattice short-circuit fires first). -/
theorem c2_counterexample :
    snapA.coord 0 = 14 ∧ snapA.csp 0 = 9 ∧ snapA.cna 0 = 3 ∧
      classifyAtom snapA L0 0 = DefectType.Bulk ∧
      classifyAtom snapA L0 0 ≠ DefectType.Twin := by
  decide

/-- Amended C2: an atom with coordination 14, centrosymmetry 9, and
structure tag 3 (BCC) is labeled Bulk: the perfect-lattice short-circuit
is evaluated before the twin rule can be reached. -/
theorem c2_amended_bulk (s : Snapshot) (L : Nat → DefectType) (i : Nat)
    (hcoord : s.coord i = 14) (hcsp : s.csp i = 9) (hcna : s.cna i = 3) :
    classifyAtom s L i = DefectType.Bulk := by
  simp [classifyAtom, hcna, hcoord]

/-- Witness for the amended C2, at `snapA`. -/
theorem c2_amended_bulk_witness : classifyAtom snapA L0 0 = DefectType.Bulk :=
  c2_amended_bulk snapA L0 0 rfl rfl rfl

/-- Claim C3 fails on the code: in `snapB`, the two label arrays `L3a` and
`L0` agree on atom 0 and differ only on the labels already written for the
other atoms, yet the loop body labels atom 0 Surface under `L3a` (its four
neighbors are already labeled Surface) and Dislocation under `L0` (the
surface rule finds no qualifying neighbor and the dislocation rule fires). -/
theorem c3_label_dependence :
    L3a 0 = L0 0 ∧
      classifyAtom snapB L3a 0 = DefectType.Surface ∧
      classifyAtom snapB L0 0 = DefectType.Dislocation :=
  ⟨rfl, by decide, by decide⟩

/-- Counterexample to C4: on `snapC`, whose single atom has the invalid
coordination value -1, the whole pass still runs and produces an output
label (Surface) — it neither aborts nor defaults the atom to Unidentified. -/
theorem c4_counterexample :
    snapC.coord 0 = -1 ∧ runPass snapC 0 = DefectType.Surface ∧
      runPass snapC 0 ≠ DefectType.Unidentified := by
  decide

/-- Amended C4: the code performs no input validation; an atom with a
negative coordination and a tag other than 3 is simply classified by the
ordinary rules, and falls to Surface via the `coordination <= 11` branch. -/
theorem c4_no_validation (s : Snapshot) (L : Nat → DefectType) (i : Nat)
    (hcna : s.cna i ≠ 3) (hneg : s.coord i < 0) :
    classifyAtom s L i = DefectType.Surface := by
  have h11 : s.coord i ≤ 11 := by omega
  have hs : is_surface s L i = true := by simp [is_surface, hcna, h11]
  have hnp : ¬(s.cna i = 3 ∧ s.coord i = 14) := fun h => hcna h.1
  simp [classifyAtom, hnp, hs]

/-- Witness for the amended C4, at `snapC`. -/
theorem c4_no_validation_witness : classifyAtom snapC L0 0 = DefectType.Surface :=
  c4_no_validation snapC L0 0 (by decide) (by decide)

/-- Claim C5: for a non-BCC tag, coordination at most 11 gives Surface
directly; for a non-BCC tag with coordination above 11 the atom is labeled
Surface exactly when at least 4 filtered neighbors are surface-qualifying
(already labeled Surface, or tag not 3 with coordination at most 11); and
an atom with tag 3 never passes the surface predicate at all. -/
theorem c5_surface_rule (s : Snapshot) (L : Nat → DefectType) (i : Nat) :
    (s.cna i ≠ 3 → s.coord i ≤ 11 → classifyAtom s L i = DefectType.Surface) ∧
    (s.cna i ≠ 3 → 11 < s.coord i →
      (classifyAtom s L i = DefectType.Surface ↔
        4 ≤ (get_neighbors s i).countP (surfaceQualifying s L))) ∧
    (s.cna i = 3 → is_surface s L i = false) := by
  refine ⟨?_, ?_, ?_⟩
  · intro hcna h11
    have hs : is_surface s L i = true := by simp [is_surface, hcna, h11]
    have hnp : ¬(s.cna i = 3 ∧ s.coord i = 14) := fun h => hcna h.1
    simp [classifyAtom, hnp, hs]
  · intro hcna h11
    have hnp : ¬(s.cna i = 3 ∧ s.coord i = 14) := fun h => hcna h.1
    have hn11 : ¬ s.coord i ≤ 11 := by omega
    by_cases h4 : 4 ≤ (get_neighbors s i).countP (surfaceQualifying s L)
    · have hs : is_surface s L i = true := by simp [is_surface, hcna, hn11, h4]
      simp [classifyAtom, hnp, hs, h4]
    · have hs : is_surface s L i = false := by simp [is_surface, hcna, hn11, h4]
      simp only [h4, iff_false]
      exact classifyAtom_ne_surface s L i hs
  · intro hcna
    simp [is_surface, hcna]

/-- Witness for C5: in `snapD`, atom 0 (tag 0, coordination 11) is Surface
by the direct branch, and atom 5 (tag 0, coordination 12, four
descriptor-qualifying neighbors) is Surface by the neighbor branch. -/
theorem c5_surface_rule_witness :
    classifyAtom snapD L0 0 = DefectType.Surface ∧
      classifyAtom snapD L0 5 = DefectType.Surface :=
  ⟨(c5_surface_rule snapD L0 0).1 (by decide) (by decide),
   ((c5_surface_rule snapD L0 5).2.1 (by decide) (by decide)).mpr (by decide)⟩

/-- Claim C6: an atom of coordination 13 and centrosymmetry below 1 that
reaches the vacancy rule (surface and dislocation predicates false) is
labeled Vacancy exactly when it has 4 filtered neighbors of coordination 13
with centrosymmetry above 4, or 2 such neighbors together with 2 neighbors
of coordination 12 with centrosymmetry above 4. -/
theorem c6_monovacancy_low_csp (s : Snapshot) (L : Nat → DefectType) (i : Nat)
    (hs : is_surface s L i = false) (hd : is_dislo s i = false)
    (hc : s.coord i = 13) (hp : s.csp i < 1) :
    (classifyAtom s L i = DefectType.Vacancy ↔
      (nrQual s i 13 = 4 ∨ (nrQual s i 13 = 2 ∧ nrQual s i 12 = 2))) := by
  have hnp : ¬(s.cna i = 3 ∧ s.coord i = 14) := by
    rintro ⟨-, h⟩; rw [hc] at h; exact absurd h (by decide)
  have hv : is_vac s i
      = decide (nrQual s i 13 = 4 ∨ (nrQual s i 13 = 2 ∧ nrQual s i 12 = 2)) := by
    simp [is_vac, hc, hp]
  constructor
  · intro hcl
    by_contra hcond
    have hvf : is_vac s i = false := by rw [hv]; exact decide_eq_false hcond
    exact classifyAtom_ne_vacancy s L i hvf hcl
  · intro hcond
    have hvt : is_vac s i = true := by rw [hv]; exact decide_eq_true hcond
    simp [classifyAtom, hnp, hs, hd, hvt]

/-- Witness for C6: in `snapE` (atom 0: coordination 13, centrosymmetry 1/2,
4 neighbors with coordination 13 and centrosymmetry 5, 9 neighbors with
coordination 14) atom 0 is labeled Vacancy. -/
theorem c6_monovacancy_low_csp_witness : classifyAtom snapE L0 0 = DefectType.Vacancy :=
  (c6_monovacancy_low_csp snapE L0 0 (by decide) (by decide) (by decide) (by decide)).mpr
    (Or.inl (by decide))

/-- Claim C7: membership in `get_neighbors` is exactly membership in the
in-cutoff list minus the atoms whose (tag, coordination) pair is (3, 14);
`get_neighbors` takes no label array, so it cannot depend on output labels
or on evaluation order. -/
theorem c7_neighbor_filter (s : Snapshot) (i n : Nat) :
    n ∈ get_neighbors s i ↔
      n ∈ s.rawNeighbors i ∧ ¬(s.cna n = 3 ∧ s.coord n = 14) := by
  simp only [get_neighbors, List.mem_filter, Bool.or_eq_true, bne_iff_ne, ne_eq,
    not_and_or]

/-- Claim C8: when the perfect-lattice check and the surface predicate both
fail and the dislocation and vacancy predicates both hold, the assigned
label is Dislocation — the chain stops at the first success. -/
theorem c8_dislocation_priority (s : Snapshot) (L : Nat → DefectType) (i : Nat)
    (hnp : ¬(s.cna i = 3 ∧ s.coord i = 14))
    (hs : is_surface s L i = false)
    (hd : is_dislo s i = true) (hv : is_vac s i = true) :
    classifyAtom s L i = DefectType.Dislocation := by
  simp [classifyAtom, hnp, hs, hd]

/-- Witness for C8: in `snapF` atom 0 satisfies both `is_dislo` and
`is_vac`, and is labeled Dislocation. -/
theorem c8_dislocation_priority_witness :
    is_dislo snapF 0 = true ∧ is_vac snapF 0 = true ∧
      classifyAtom snapF L0 0 = DefectType.Dislocation :=
  ⟨by decide, by decide,
   c8_dislocation_priority snapF L0 0 (by decide) (by decide) (by decide) (by decide)⟩

/-- Claim C9: an atom with tag 3 (BCC) is never labeled Surface and never
labeled PlanarFault: both predicates demand a tag other than 3 up front. -/
theorem c9_bcc_never_surface_or_planarfault (s : Snapshot) (L : Nat → DefectType) (i : Nat)
    (hcna : s.cna i = 3) :
    classifyAtom s L i ≠ DefectType.Surface ∧
      classifyAtom s L i ≠ DefectType.PlanarFault := by
  have hs : is_surface s L i = false := by simp [is_surface, hcna]
  have hp : is_planarfault s i = false := by simp [is_planarfault, hcna]
  exact ⟨classifyAtom_ne_surface s L i hs, classifyAtom_ne_planarfault s L i hp⟩

/-- Witness for C9, at `snapF` (atom 0 has tag 3 and is labeled
Dislocation, so neither Surface nor PlanarFault). -/
theorem c9_bcc_never_surface_or_planarfault_witness :
    classifyAtom snapF L0 0 ≠ DefectType.Surface ∧
      classifyAtom snapF L0 0 ≠ DefectType.PlanarFault :=
  c9_bcc_never_surface_or_planarfault snapF L0 0 (by decide)

/-- Claim C10: in the coordination-13, centrosymmetry-below-1 branch the
neighbor counts are matched exactly: with 5 qualifying coordination-13
neighbors (and a qualifying coordination-12 count different from 2),
`is_vac` is false and the atom is not labeled Vacancy. -/
theorem c10_exact_neighbor_counts (s : Snapshot) (L : Nat → DefectType) (i : Nat)
    (hc : s.coord i = 13) (hp : s.csp i < 1)
    (h13 : nrQual s i 13 = 5) (h12 : nrQual s i 12 ≠ 2) :
    is_vac s i = false ∧ classifyAtom s L i ≠ DefectType.Vacancy := by
  have hvf : is_vac s i = false := by simp [is_vac, hc, hp, h13]
  exact ⟨hvf, classifyAtom_ne_vacancy s L i hvf⟩

/-- Witness for C10: in `snapG` atom 0 has exactly 5 qualifying
coordination-13 neighbors and is not labeled Vacancy. -/
theorem c10_exact_neighbor_counts_witness :
    is_vac snapG 0 = false ∧ classifyAtom snapG L0 0 ≠ DefectType.Vacancy :=
  c10_exact_neighbor_counts snapG L0 0 (by decide) (by decide) (by decide) (by decide)
